import Mathlib

/-!
Verification of the volleyball match-tracking core of the spikey repository.

The development shallowly embeds the match outcome engine
(updateGameSet in src/src/firebase/FirestoreExample.ts, identical to the
first copy in src/unnamed/part_001, imported by src/src/App.tsx), the
legacy copy of the same function (second copy in src/unnamed/part_001,
lines 728-818), the set-score validation and substitution handlers of
src/src/App.tsx, and the streak computation of
src/src/components/StatsPage.tsx (identical to src/unnamed/part_008).

Modelling conventions:
* TypeScript numbers holding scores are modelled as Int (the UI can in
  principle submit any integer and the code checks for negatives);
  set numbers and counters are Nat.
* The joinedAt field of a lineup player is string-or-Timestamp in the
  source; it is modelled as the String the sanitizer normalizes it to,
  under which the Timestamp branch of the sanitizer collapses and the
  JavaScript null-ish defaults (x or-else empty string) are the
  identity.
* Optional TypeScript fields are Option.
* Array.prototype.sort with comparator (a, b) => a.k - b.k is a stable
  sort by k; it is modelled by the structural insertionSort of Mathlib,
  which is stable, hence produces the same list.
-/

namespace Spikey


/-- Score of one set, team points versus opponent points
(interface SetScore of FirestoreExample.ts). -/
structure SetScore where
  team : Int
  opponent : Int
deriving DecidableEq, Repr

/-- One player of a lineup (interface LineupPlayer of
FirestoreExample.ts); joinedAt is modelled as its normalized string
form. -/
structure LineupPlayer where
  id : String
  name : String
  number : String
  position : String
  rotationPosition : Nat
  joinedAt : String
deriving DecidableEq, Repr

/-- A substitution event (interface Substitution of
FirestoreExample.ts). -/
structure Substitution where
  outPlayer : LineupPlayer
  inPlayer : LineupPlayer
  currentScore : SetScore
deriving DecidableEq, Repr

/-- One set of a match (interface Set of FirestoreExample.ts; named
GameSet as in src/src/types/game.ts to avoid clashing with Lean Set).
score and substitutions are optional fields of the TypeScript
interface. -/
structure GameSet where
  number : Nat
  lineup : List LineupPlayer
  score : Option SetScore
  substitutions : Option (List Substitution)
deriving DecidableEq, Repr

/-- Match status (the status union of interface Game). -/
inductive GameStatus where
  | win
  | loss
  | inProgress
deriving DecidableEq, Repr

/-- A match (interface Game of FirestoreExample.ts); date is modelled
as the epoch-millisecond value that new Date(date).getTime() yields
for the stored string. -/
structure Game where
  id : String
  teamId : String
  opponent : String
  date : Int
  status : GameStatus
  sets : List GameSet
  userId : String
  score : Option SetScore
  finalScore : Option SetScore
deriving DecidableEq, Repr

/-- Result triple returned by updateGameSet. -/
structure UpdateResult where
  sets : List GameSet
  status : GameStatus
  finalScore : Option SetScore
deriving DecidableEq, Repr

/-- Sanitized copy of a lineup player (the lineup map inside
updateGameSet, FirestoreExample.ts lines 287-298): each string field
defaults to the empty string when empty (the JavaScript x or-else
empty string, an identity on strings), rotationPosition defaults to 0
(identity on Nat), and joinedAt is normalized to a string, which under
the string model is the identity branch. -/
def sanitizePlayer (p : LineupPlayer) : LineupPlayer :=
  { id := p.id
    name := p.name
    number := p.number
    position := p.position
    rotationPosition := p.rotationPosition
    joinedAt := p.joinedAt }

/-- Sanitized copy of a substitution event (FirestoreExample.ts lines
302-328): both players are sanitized, currentScore is kept. -/
def sanitizeSubstitution (sub : Substitution) : Substitution :=
  { outPlayer := sanitizePlayer sub.outPlayer
    inPlayer := sanitizePlayer sub.inPlayer
    currentScore := sub.currentScore }

/-- The sanitizedSet built by updateGameSet (FirestoreExample.ts lines
284-329): score is included only when present, substitutions is always
present, defaulting to the empty array. -/
def sanitizeSet (s : GameSet) : GameSet :=
  { number := s.number
    lineup := s.lineup.map sanitizePlayer
    score := s.score
    substitutions := some ((s.substitutions.getD []).map sanitizeSubstitution) }

/-- Find-or-add of updateGameSet (FirestoreExample.ts lines 331-338):
findIndex locates the first set with the same number and the new
record replaces it wholesale; otherwise the record is pushed at the
end. Written as structural recursion equivalent to
findIndex-then-replace-or-push. -/
def findOrAdd : List GameSet → GameSet → List GameSet
  | [], s => [s]
  | t :: rest, s =>
    if t.number == s.number then s :: rest else t :: findOrAdd rest s

/-- Replacement record built by the legacy updateGameSet when the set
number already exists (src/unnamed/part_001 lines 743-748): the update
is spread in, but substitutions fall back to the previously recorded
list (or the empty array) when the update omits them. -/
def mergeSetLegacy (old upd : GameSet) : GameSet :=
  { upd with
    substitutions :=
      match upd.substitutions with
      | some subs => some subs
      | none => some (old.substitutions.getD []) }

/-- Find-or-merge of the legacy updateGameSet (src/unnamed/part_001
lines 740-751), structural form of findIndex-then-merge-or-push. -/
def findOrMergeLegacy : List GameSet → GameSet → List GameSet
  | [], s => [s]
  | t :: rest, s =>
    if t.number == s.number then mergeSetLegacy t s :: rest
    else t :: findOrMergeLegacy rest s

/-- Ascending sort by set number, modelling
updatedSets.sort((a, b) => a.number - b.number). -/
def sortByNumber (l : List GameSet) : List GameSet :=
  l.insertionSort (fun a b => a.number ≤ b.number)

/-- One step of the setsWon reduce of updateGameSet (FirestoreExample.ts
lines 343-356): a set with a present score credits the side with the
strictly larger points, a tied or absent score credits neither. -/
def setsWonStep (acc : SetScore) (s : GameSet) : SetScore :=
  match s.score with
  | some sc =>
    if sc.team > sc.opponent then { acc with team := acc.team + 1 }
    else if sc.opponent > sc.team then { acc with opponent := acc.opponent + 1 }
    else acc
  | none => acc

/-- The setsWon tally of updateGameSet, a fold starting from 0-0. -/
def setsWon (l : List GameSet) : SetScore :=
  l.foldl setsWonStep { team := 0, opponent := 0 }

/-- Status and finalScore computation of the live updateGameSet
(FirestoreExample.ts lines 358-397): nothing is decided under 4 sets;
with at least 4 sets the tallies 3-1, 4-0, 1-3 and 0-4 decide; failing
those, a 5-element collection whose update carries a score is decided
by the score of the update record (the fifthSetWinner ternary, a tie
crediting the opponent). -/
def matchOutcome (merged : List GameSet) (updScore : Option SetScore) :
    GameStatus × Option SetScore :=
  let sw := setsWon merged
  if 4 ≤ merged.length then
    if sw.team = 3 ∧ sw.opponent = 1 then (.win, some ⟨3, 1⟩)
    else if sw.team = 4 ∧ sw.opponent = 0 then (.win, some ⟨4, 0⟩)
    else if sw.opponent = 3 ∧ sw.team = 1 then (.loss, some ⟨1, 3⟩)
    else if sw.opponent = 4 ∧ sw.team = 0 then (.loss, some ⟨0, 4⟩)
    else if merged.length = 5 then
      match updScore with
      | some sc =>
        if sc.team > sc.opponent then
          (.win, some ⟨sw.team + 1, sw.opponent⟩)
        else
          (.loss, some ⟨sw.team, sw.opponent + 1⟩)
      | none => (.inProgress, none)
    else (.inProgress, none)
  else (.inProgress, none)

/-- Merged set collection produced by the live updateGameSet. -/
def mergeSets (existing : List GameSet) (upd : GameSet) : List GameSet :=
  sortByNumber (findOrAdd existing (sanitizeSet upd))

/-- The live updateGameSet (FirestoreExample.ts lines 270-427 and the
first copy in src/unnamed/part_001), restricted to its pure content:
sanitize the update, merge it into the stored sets, sort, tally, and
derive status and finalScore. Persistence calls are the callers
concern and carry the returned triple unchanged. -/
def updateGameSet (existing : List GameSet) (upd : GameSet) : UpdateResult :=
  let merged := mergeSets existing upd
  let r := matchOutcome merged (sanitizeSet upd).score
  { sets := merged, status := r.1, finalScore := r.2 }

/-- Status and finalScore computation of the legacy updateGameSet
(src/unnamed/part_001 lines 770-796): a 5-element collection is
decided by the score of the update record when present; a 4-element
collection stays in progress on a 2-2 tally and is otherwise decided
by comparing the tallies, with finalScore the tally itself; any other
size stays in progress. -/
def matchOutcomeLegacy (merged : List GameSet) (updScore : Option SetScore) :
    GameStatus × Option SetScore :=
  let sw := setsWon merged
  if merged.length = 5 then
    match updScore with
    | some sc =>
      ((if sc.team > sc.opponent then .win else .loss),
       some ⟨sw.team + (if sc.team > sc.opponent then 1 else 0),
             sw.opponent + (if sc.opponent > sc.team then 1 else 0)⟩)
    | none => (.inProgress, none)
  else if merged.length = 4 then
    if sw.team = 2 ∧ sw.opponent = 2 then (.inProgress, none)
    else ((if sw.team > sw.opponent then .win else .loss), some sw)
  else (.inProgress, none)

/-- Merged set collection produced by the legacy updateGameSet. -/
def mergeSetsLegacy (existing : List GameSet) (upd : GameSet) : List GameSet :=
  sortByNumber (findOrMergeLegacy existing upd)

/-- The legacy updateGameSet (second copy in src/unnamed/part_001,
lines 728-818), pure content: merge preserving omitted substitutions,
sort, tally, derive status and finalScore. -/
def updateGameSetLegacy (existing : List GameSet) (upd : GameSet) : UpdateResult :=
  let merged := mergeSetsLegacy existing upd
  let r := matchOutcomeLegacy merged upd.score
  { sets := merged, status := r.1, finalScore := r.2 }

/-- Bool form of the team-win test of setsWonStep. -/
def isTeamWin (s : GameSet) : Bool :=
  match s.score with
  | some sc => decide (sc.team > sc.opponent)
  | none => false

/-- Bool form of the opponent-win test of setsWonStep. -/
def isOppWin (s : GameSet) : Bool :=
  match s.score with
  | some sc => decide (sc.opponent > sc.team)
  | none => false

/-- Sample set numbered n won by the team 25-20 (spec scenarios 1-3). -/
def teamSet (n : Nat) : GameSet := ⟨n, [], some ⟨25, 20⟩, none⟩

/-- Sample set numbered n won by the opponent 20-25. -/
def oppSet (n : Nat) : GameSet := ⟨n, [], some ⟨20, 25⟩, none⟩

/-- Scenario 2 collection: four scored sets split 2-2. -/
def scen2Sets : List GameSet := [teamSet 1, oppSet 2, teamSet 3, oppSet 4]

/-- Breaker set update, scored 15-10 for the team (scenario 3). -/
def breakerSet : GameSet := ⟨5, [], some ⟨15, 10⟩, none⟩

/-- Five stored sets of a 2-2 match decided 15-10 in the breaker. -/
def fiveSetMatch : List GameSet := [teamSet 1, oppSet 2, teamSet 3, oppSet 4, breakerSet]

/-- Resubmission of set 2 with its opponent-won score. -/
def resubmitSet2 : GameSet := ⟨2, [], some ⟨20, 25⟩, none⟩

/-- Three stored sets tallying 2-1 for the team. -/
def threeSets21 : List GameSet := [teamSet 1, teamSet 2, oppSet 3]

/-- Set 4 update scored 25-23 for the team. -/
def deciderSet4 : GameSet := ⟨4, [], some ⟨25, 23⟩, none⟩

/-- Set 5 update scored 10-15 for the opponent. -/
def fifthOppSet : GameSet := ⟨5, [], some ⟨10, 15⟩, none⟩

/-- Set 5 update carrying only a lineup, no score yet. -/
def lineupOnlySet5 : GameSet := ⟨5, [], none, none⟩

/-- Four stored sets tallying 3-1 for the team. -/
def fourSets31 : List GameSet := [teamSet 1, teamSet 2, oppSet 3, teamSet 4]

/-- Sample players for concrete inputs. -/
def samplePlayerA : LineupPlayer := ⟨"pa", "Ana", "7", "setter", 1, "t0"⟩

/-- Second sample player, jersey number 8. -/
def samplePlayerB : LineupPlayer := ⟨"pb", "Bea", "8", "libero", 1, "t0"⟩

/-- Third sample player, jersey number 9. -/
def samplePlayerC : LineupPlayer := ⟨"pc", "Cami", "9", "outside", 2, "t0"⟩

/-- Sample substitution event. -/
def sampleSub : Substitution := ⟨samplePlayerA, samplePlayerB, ⟨10, 8⟩⟩

/-- Stored set 1 carrying one recorded substitution event. -/
def setWithSub : GameSet := ⟨1, [], some ⟨25, 20⟩, some [sampleSub]⟩

/-- Update for set 1 carrying a score and omitting substitutions. -/
def scoreOnlyUpdate : GameSet := ⟨1, [], some ⟨25, 22⟩, none⟩

/-- Error vocabulary of the substitution validator (spec section 7).
Modelled from the spec: only SubstitutionLimitExceeded has a
counterpart in the source (the modal guard at App.tsx line 2270 with
its maximum reached notice); PlayerNotInLineup and
PlayerAlreadyInLineup name rejections the source never performs,
listed so claims about them can be stated. -/
inductive SubstitutionError where
  | SubstitutionLimitExceeded
  | PlayerNotInLineup
  | PlayerAlreadyInLineup
deriving DecidableEq, Repr

/-- The updatedSet built by handleSubstitution (App.tsx lines
1567-1575): the lineup entry whose jersey number equals the outgoing
player is replaced by the incoming player at the same rotation
position, and the substitution event is appended to the possibly
defaulted substitution list, with no validation of its own. -/
def handleSubstitution (s : GameSet) (outP inP : LineupPlayer)
    (curr : SetScore) : GameSet :=
  { s with
    lineup := s.lineup.map fun p =>
      if p.number == outP.number then
        { inP with rotationPosition := p.rotationPosition }
      else p
    substitutions := some ((s.substitutions.getD []) ++ [⟨outP, inP, curr⟩]) }

/-- The substitution flow the application exposes: the substitution
modal (App.tsx line 2270) replaces the form with a maximum reached
notice once the set holds 6 substitution events, so handleSubstitution
can only fire below the cap; at or above it the attempt fails and the
set is untouched. -/
def substitutionFlow (s : GameSet) (outP inP : LineupPlayer)
    (curr : SetScore) : GameSet × Option SubstitutionError :=
  if 6 ≤ (s.substitutions.getD []).length then
    (s, some .SubstitutionLimitExceeded)
  else
    (handleSubstitution s outP inP curr, none)

/-- Validation errors of handleSetScore (App.tsx lines 1357-1382), one
constructor per alert message. -/
inductive ValidationError where
  | negativeScore
  | belowTwentyFive
  | belowFifteen
  | marginBelowTwo
deriving DecidableEq, Repr

/-- Score validation of handleSetScore (App.tsx lines 1357-1382):
negative scores are rejected; for set numbers up to 4 a side must
reach 25 points and the margin must be at least 2; for later set
numbers the threshold is 15 with the same margin rule. -/
def validateSetScore (setNumber : Nat) (score : SetScore) :
    Option ValidationError :=
  if score.team < 0 ∨ score.opponent < 0 then some .negativeScore
  else if setNumber ≤ 4 then
    if score.team < 25 ∧ score.opponent < 25 then some .belowTwentyFive
    else if |score.team - score.opponent| < 2 then some .marginBelowTwo
    else none
  else
    if score.team < 15 ∧ score.opponent < 15 then some .belowFifteen
    else if |score.team - score.opponent| < 2 then some .marginBelowTwo
    else none

/-- Set collection evolution of handleSetScore (App.tsx lines
1353-1390): a failed validation returns before any call to
updateGameSet, leaving the stored sets untouched; otherwise the new
set record (number, current lineup, score, substitutions omitted) is
merged through updateGameSet. The status recomputation the handler
performs afterwards (lines 1392-1425) concerns the Game record, not
the set collection. -/
def handleSetScore (setNumber : Nat) (score : SetScore)
    (lineup : List LineupPlayer) (sets : List GameSet) :
    List GameSet × Option ValidationError :=
  match validateSetScore setNumber score with
  | some e => (sets, some e)
  | none => ((updateGameSet sets ⟨setNumber, lineup, some score, none⟩).sets, none)

/-- Set already carrying six substitution events. -/
def cappedSet : GameSet :=
  ⟨2, [samplePlayerA], some ⟨20, 18⟩, some (List.replicate 6 sampleSub)⟩

/-- Set whose lineup does not contain jersey number 9. -/
def missingOutSet : GameSet := ⟨3, [samplePlayerA], none, some []⟩

/-- Win or loss streak of the stats page; a type of none mirrors the
literal none returned when no decided match exists. -/
structure Streak where
  count : Nat
  type : Option GameStatus
deriving DecidableEq, Repr

/-- Loop of calculateCurrentStreak (StatsPage.tsx lines 102-112):
starting from count 1, walk the remaining games and stop at the first
whose status differs from the first result. -/
def streakLoop (firstResult : GameStatus) : List Game → Nat → Nat
  | [], count => count
  | g :: rest, count =>
    if g.status = firstResult then streakLoop firstResult rest (count + 1)
    else count

/-- Descending sort by date, modelling
sort((a, b) => new Date(b.date).getTime() - new Date(a.date).getTime())
on the epoch-millisecond model of dates. -/
def sortByDateDesc (l : List Game) : List Game :=
  l.insertionSort (fun a b => b.date ≤ a.date)

/-- calculateCurrentStreak of StatsPage.tsx lines 94-118 (identical in
src/unnamed/part_008 lines 64-88): drop in-progress games, sort the
rest by date descending, and count, starting at 1, the run of games
sharing the status of the most recent one; an empty remainder yields
count 0 and type none. -/
def calculateCurrentStreak (teamGames : List Game) : Streak :=
  match sortByDateDesc (teamGames.filter fun g =>
      decide (g.status ≠ GameStatus.inProgress)) with
  | [] => ⟨0, none⟩
  | g :: rest => ⟨streakLoop g.status rest 1, some g.status⟩

/-- Streak as worded by the claim, for comparison with
calculateCurrentStreak: the length of the longest consecutive run of
one outcome ending at the most recent decided match once the decided
matches are ordered by date descending, and count 0 with type none
when no decided match exists. -/
def streakRunLength (teamGames : List Game) : Streak :=
  match sortByDateDesc (teamGames.filter fun g =>
      decide (g.status ≠ GameStatus.inProgress)) with
  | [] => ⟨0, none⟩
  | g :: rest =>
    ⟨((g :: rest).takeWhile fun x => decide (x.status = g.status)).length,
     some g.status⟩

/-- Sample in-progress game. -/
def sampleInProgressGame : Game :=
  ⟨"g1", "t1", "Rivals", 100, .inProgress, [], "u1", none, none⟩

theorem setsWon_foldl (l : List GameSet) :
    ∀ acc : SetScore, l.foldl setsWonStep acc =
      ⟨acc.team + l.countP isTeamWin, acc.opponent + l.countP isOppWin⟩ := by
  induction l with
  | nil => intro acc; simp
  | cons s rest ih =>
    intro acc
    rw [List.foldl_cons, ih]
    simp only [List.countP_cons]
    cases hs : s.score with
    | none =>
      have e : setsWonStep acc s = acc := by simp [setsWonStep, hs]
      have h1 : isTeamWin s = false := by simp [isTeamWin, hs]
      have h2 : isOppWin s = false := by simp [isOppWin, hs]
      rw [e, h1, h2]
      simp
    | some sc =>
      rcases lt_trichotomy sc.opponent sc.team with h | h | h
      · have e : setsWonStep acc s = ⟨acc.team + 1, acc.opponent⟩ := by
          simp [setsWonStep, hs, h]
        have h1 : isTeamWin s = true := by simp [isTeamWin, hs, h]
        have h2 : isOppWin s = false := by
          simp [isOppWin, hs]
          omega
        rw [e, h1, h2]
        simp [SetScore.mk.injEq]
        omega
      · have e : setsWonStep acc s = acc := by
          simp [setsWonStep, hs, h]
        have h1 : isTeamWin s = false := by simp [isTeamWin, hs, h]
        have h2 : isOppWin s = false := by simp [isOppWin, hs, h]
        rw [e, h1, h2]
        simp
      · have e : setsWonStep acc s = ⟨acc.team, acc.opponent + 1⟩ := by
          simp [setsWonStep, hs, h]
          omega
        have h1 : isTeamWin s = false := by
          simp [isTeamWin, hs]
          omega
        have h2 : isOppWin s = true := by simp [isOppWin, hs, h]
        rw [e, h1, h2]
        simp [SetScore.mk.injEq]
        omega

theorem setsWon_eq_countP (l : List GameSet) :
    setsWon l = ⟨(l.countP isTeamWin : Int), (l.countP isOppWin : Int)⟩ := by
  simpa using setsWon_foldl l ⟨0, 0⟩

theorem setsWon_perm {l₁ l₂ : List GameSet} (h : l₁.Perm l₂) :
    setsWon l₁ = setsWon l₂ := by
  rw [setsWon_eq_countP, setsWon_eq_countP, h.countP_eq, h.countP_eq]

theorem setsWon_sortByNumber (l : List GameSet) :
    setsWon (sortByNumber l) = setsWon l :=
  setsWon_perm (List.perm_insertionSort _ l)

theorem setsWon_append_unscored (l : List GameSet) (u : GameSet)
    (h : u.score = none) : setsWon (l ++ [u]) = setsWon l := by
  rw [setsWon_eq_countP, setsWon_eq_countP, List.countP_append, List.countP_append]
  have h1 : isTeamWin u = false := by simp [isTeamWin, h]
  have h2 : isOppWin u = false := by simp [isOppWin, h]
  simp [List.countP_cons, h1, h2]

theorem length_sortByNumber (l : List GameSet) :
    (sortByNumber l).length = l.length :=
  List.length_insertionSort _ l

theorem findOrAdd_of_fresh : ∀ (l : List GameSet) (s : GameSet),
    (∀ t ∈ l, t.number ≠ s.number) → findOrAdd l s = l ++ [s]
  | [], _, _ => rfl
  | t :: rest, s, h => by
    have ht : ¬(t.number == s.number) = true := by
      simpa using h t (List.mem_cons_self t rest)
    simp only [findOrAdd, if_neg ht, List.cons_append]
    rw [findOrAdd_of_fresh rest s (fun u hu => h u (List.mem_cons_of_mem t hu))]

theorem matchOutcome_31 (m : List GameSet) (us : Option SetScore)
    (h4 : 4 ≤ m.length) (hw : setsWon m = ⟨3, 1⟩) :
    matchOutcome m us = (.win, some ⟨3, 1⟩) := by
  simp [matchOutcome, hw, h4]

theorem matchOutcome_13 (m : List GameSet) (us : Option SetScore)
    (h4 : 4 ≤ m.length) (hw : setsWon m = ⟨1, 3⟩) :
    matchOutcome m us = (.loss, some ⟨1, 3⟩) := by
  simp [matchOutcome, hw, h4]

theorem matchOutcome_40 (m : List GameSet) (us : Option SetScore)
    (h4 : 4 ≤ m.length) (hw : setsWon m = ⟨4, 0⟩) :
    matchOutcome m us = (.win, some ⟨4, 0⟩) := by
  simp [matchOutcome, hw, h4]

theorem matchOutcome_04 (m : List GameSet) (us : Option SetScore)
    (h4 : 4 ≤ m.length) (hw : setsWon m = ⟨0, 4⟩) :
    matchOutcome m us = (.loss, some ⟨0, 4⟩) := by
  simp [matchOutcome, hw, h4]

theorem matchOutcome_short (m : List GameSet) (us : Option SetScore)
    (h : m.length ≤ 3) : matchOutcome m us = (.inProgress, none) := by
  simp only [matchOutcome]
  rw [if_neg (by omega : ¬4 ≤ m.length)]

theorem matchOutcomeLegacy_short (m : List GameSet) (us : Option SetScore)
    (h : m.length ≤ 3) : matchOutcomeLegacy m us = (.inProgress, none) := by
  simp only [matchOutcomeLegacy]
  rw [if_neg (by omega : ¬m.length = 5), if_neg (by omega : ¬m.length = 4)]

/-- C1: on the scenario-3 input (sets 1-4 split 2-2, then set 5 scored
15-10) updateGameSet returns status win as the claim states, but its
finalScore is team 4, opponent 2 rather than the 3-2 sets-won tally the
claim asserts: setsWon is computed over all five merged sets (already
3-2) and the fifth-set winner is then credited once more. The legacy
copy computes the same values. -/
theorem updateGameSet_fifth_set_double_counts :
    (updateGameSet scen2Sets breakerSet).status = .win ∧
    (updateGameSet scen2Sets breakerSet).finalScore = some ⟨4, 2⟩ ∧
    (updateGameSet scen2Sets breakerSet).finalScore ≠ some ⟨3, 2⟩ ∧
    (updateGameSetLegacy scen2Sets breakerSet).status = .win ∧
    (updateGameSetLegacy scen2Sets breakerSet).finalScore = some ⟨4, 2⟩ := by
  decide

/-- C2: whenever the merged collection holds at most 3 sets, both
copies of updateGameSet report in-progress with a null finalScore,
whatever the recorded scores are. -/
theorem updateGameSet_atMostThreeSets_inProgress
    (existing : List GameSet) (upd : GameSet)
    (h : (mergeSets existing upd).length ≤ 3)
    (hL : (mergeSetsLegacy existing upd).length ≤ 3) :
    (updateGameSet existing upd).status = .inProgress ∧
    (updateGameSet existing upd).finalScore = none ∧
    (updateGameSetLegacy existing upd).status = .inProgress ∧
    (updateGameSetLegacy existing upd).finalScore = none := by
  have e := matchOutcome_short (mergeSets existing upd) (sanitizeSet upd).score h
  have eL := matchOutcomeLegacy_short (mergeSetsLegacy existing upd) upd.score hL
  exact ⟨congrArg Prod.fst e, congrArg Prod.snd e,
         congrArg Prod.fst eL, congrArg Prod.snd eL⟩

/-- C2 witness: two team-won sets merged with a third team-won set, so
one side already tallies three set wins, still in progress. -/
theorem updateGameSet_atMostThreeSets_inProgress_witness :
    (updateGameSet [teamSet 1, teamSet 2] (teamSet 3)).status = .inProgress ∧
    (updateGameSet [teamSet 1, teamSet 2] (teamSet 3)).finalScore = none ∧
    (updateGameSetLegacy [teamSet 1, teamSet 2] (teamSet 3)).status = .inProgress ∧
    (updateGameSetLegacy [teamSet 1, teamSet 2] (teamSet 3)).finalScore = none :=
  updateGameSet_atMostThreeSets_inProgress [teamSet 1, teamSet 2] (teamSet 3)
    (by decide) (by decide)

theorem matchOutcomeLegacy_31 (m : List GameSet) (us : Option SetScore)
    (hlen : m.length = 4) (hw : setsWon m = ⟨3, 1⟩) :
    matchOutcomeLegacy m us = (.win, some ⟨3, 1⟩) := by
  simp [matchOutcomeLegacy, hlen, hw]

theorem matchOutcomeLegacy_13 (m : List GameSet) (us : Option SetScore)
    (hlen : m.length = 4) (hw : setsWon m = ⟨1, 3⟩) :
    matchOutcomeLegacy m us = (.loss, some ⟨1, 3⟩) := by
  simp [matchOutcomeLegacy, hlen, hw]

/-- C8: a merged collection of exactly 4 sets, all scored, in which the
team tallies 3 set wins against 1 (or 1 against 3), is decided by both
copies of updateGameSet with the tally as finalScore. -/
theorem updateGameSet_fourScoredSets_decide
    (existing : List GameSet) (upd : GameSet) :
    ((mergeSets existing upd).length = 4 →
      (∀ s ∈ mergeSets existing upd, s.score ≠ none) →
      ((setsWon (mergeSets existing upd) = ⟨3, 1⟩ →
        (updateGameSet existing upd).status = .win ∧
        (updateGameSet existing upd).finalScore = some ⟨3, 1⟩) ∧
       (setsWon (mergeSets existing upd) = ⟨1, 3⟩ →
        (updateGameSet existing upd).status = .loss ∧
        (updateGameSet existing upd).finalScore = some ⟨1, 3⟩))) ∧
    ((mergeSetsLegacy existing upd).length = 4 →
      (∀ s ∈ mergeSetsLegacy existing upd, s.score ≠ none) →
      ((setsWon (mergeSetsLegacy existing upd) = ⟨3, 1⟩ →
        (updateGameSetLegacy existing upd).status = .win ∧
        (updateGameSetLegacy existing upd).finalScore = some ⟨3, 1⟩) ∧
       (setsWon (mergeSetsLegacy existing upd) = ⟨1, 3⟩ →
        (updateGameSetLegacy existing upd).status = .loss ∧
        (updateGameSetLegacy existing upd).finalScore = some ⟨1, 3⟩))) := by
  constructor
  · intro hlen _hall
    constructor
    · intro hw
      have e := matchOutcome_31 (mergeSets existing upd) (sanitizeSet upd).score
        (by omega) hw
      exact ⟨congrArg Prod.fst e, congrArg Prod.snd e⟩
    · intro hw
      have e := matchOutcome_13 (mergeSets existing upd) (sanitizeSet upd).score
        (by omega) hw
      exact ⟨congrArg Prod.fst e, congrArg Prod.snd e⟩
  · intro hlen _hall
    constructor
    · intro hw
      have e := matchOutcomeLegacy_31 (mergeSetsLegacy existing upd) upd.score hlen hw
      exact ⟨congrArg Prod.fst e, congrArg Prod.snd e⟩
    · intro hw
      have e := matchOutcomeLegacy_13 (mergeSetsLegacy existing upd) upd.score hlen hw
      exact ⟨congrArg Prod.fst e, congrArg Prod.snd e⟩

/-- C8 witness: scenario 1, team wins sets 1, 2 and 4, drops set 3. -/
theorem updateGameSet_fourScoredSets_decide_witness :
    (updateGameSet [teamSet 1, teamSet 2, oppSet 3] (teamSet 4)).status = .win ∧
    (updateGameSet [teamSet 1, teamSet 2, oppSet 3] (teamSet 4)).finalScore = some ⟨3, 1⟩ ∧
    (updateGameSetLegacy [teamSet 1, teamSet 2, oppSet 3] (teamSet 4)).status = .win ∧
    (updateGameSetLegacy [teamSet 1, teamSet 2, oppSet 3] (teamSet 4)).finalScore = some ⟨3, 1⟩ := by
  have h := updateGameSet_fourScoredSets_decide [teamSet 1, teamSet 2, oppSet 3] (teamSet 4)
  have h1 := (h.1 (by decide) (by decide)).1 (by decide)
  have h2 := (h.2 (by decide) (by decide)).1 (by decide)
  exact ⟨h1.1, h1.2, h2.1, h2.2⟩

/-- C10: with five merged sets, both copies of updateGameSet decide the
winner from the score of the record passed as the update, not from the
set numbered 5: resubmitting opponent-won set 2 of a match whose
breaker ended 15-10 for the team yields status loss, although the
merged collection still ends with that team-won breaker. -/
theorem updateGameSet_fiveSets_uses_update_score :
    (updateGameSet fiveSetMatch resubmitSet2).status = .loss ∧
    (updateGameSet fiveSetMatch resubmitSet2).finalScore = some ⟨3, 3⟩ ∧
    (updateGameSet fiveSetMatch resubmitSet2).sets.getLast? = some breakerSet ∧
    breakerSet.score = some ⟨15, 10⟩ ∧
    (updateGameSetLegacy fiveSetMatch resubmitSet2).status = .loss := by
  decide

/-- C3 counterexample: merging set 4 decides the match as a 3-1 win,
yet the next updateGameSet call adding the previously absent set
number 5, scored for the opponent, returns status loss and finalScore
3-3 instead of the earlier win and 3-1. The legacy copy decided the
same way even loses its win status to in-progress when the added set 5
carries no score at all. -/
theorem updateGameSet_decided_status_not_stable :
    (updateGameSet threeSets21 deciderSet4).status = .win ∧
    (updateGameSet threeSets21 deciderSet4).finalScore = some ⟨3, 1⟩ ∧
    (∀ t ∈ (updateGameSet threeSets21 deciderSet4).sets, t.number ≠ 5) ∧
    (updateGameSet (updateGameSet threeSets21 deciderSet4).sets fifthOppSet).status = .loss ∧
    (updateGameSet (updateGameSet threeSets21 deciderSet4).sets fifthOppSet).finalScore = some ⟨3, 3⟩ ∧
    (updateGameSetLegacy threeSets21 deciderSet4).status = .win ∧
    (updateGameSetLegacy (updateGameSetLegacy threeSets21 deciderSet4).sets lineupOnlySet5).status = .inProgress := by
  decide

/-- C3 amended: once the live updateGameSet has decided a match through
one of the sets-won tallies 3-1, 4-0, 1-3 or 0-4, a subsequent call
adding a set with a new (previously absent) number and no score returns
the same status and the same finalScore that the outcome computation
produced before, for any score the deciding update may have carried;
the counterexample shows a scored new set can still change both. -/
theorem updateGameSet_tallyDecided_stable
    (sets : List GameSet) (upd : GameSet) (s0 : Option SetScore)
    (h4 : 4 ≤ sets.length)
    (hfresh : ∀ t ∈ sets, t.number ≠ upd.number)
    (hscore : upd.score = none)
    (hdec : setsWon sets = ⟨3, 1⟩ ∨ setsWon sets = ⟨4, 0⟩ ∨
            setsWon sets = ⟨1, 3⟩ ∨ setsWon sets = ⟨0, 4⟩) :
    (updateGameSet sets upd).status = (matchOutcome sets s0).1 ∧
    (updateGameSet sets upd).finalScore = (matchOutcome sets s0).2 := by
  have hfresh2 : ∀ t ∈ sets, t.number ≠ (sanitizeSet upd).number := hfresh
  have hmerge : mergeSets sets upd = sortByNumber (sets ++ [sanitizeSet upd]) := by
    unfold mergeSets
    rw [findOrAdd_of_fresh sets (sanitizeSet upd) hfresh2]
  have hscore2 : (sanitizeSet upd).score = none := hscore
  have hsw : setsWon (mergeSets sets upd) = setsWon sets := by
    rw [hmerge, setsWon_sortByNumber, setsWon_append_unscored _ _ hscore2]
  have hlen : 4 ≤ (mergeSets sets upd).length := by
    rw [hmerge, length_sortByNumber, List.length_append]
    simp
    omega
  rcases hdec with h | h | h | h
  · have e1 := matchOutcome_31 (mergeSets sets upd) (sanitizeSet upd).score hlen (hsw.trans h)
    have e2 := matchOutcome_31 sets s0 h4 h
    rw [show (updateGameSet sets upd).status =
          (matchOutcome (mergeSets sets upd) (sanitizeSet upd).score).1 from rfl,
        show (updateGameSet sets upd).finalScore =
          (matchOutcome (mergeSets sets upd) (sanitizeSet upd).score).2 from rfl,
        e1, e2]
    exact ⟨rfl, rfl⟩
  · have e1 := matchOutcome_40 (mergeSets sets upd) (sanitizeSet upd).score hlen (hsw.trans h)
    have e2 := matchOutcome_40 sets s0 h4 h
    rw [show (updateGameSet sets upd).status =
          (matchOutcome (mergeSets sets upd) (sanitizeSet upd).score).1 from rfl,
        show (updateGameSet sets upd).finalScore =
          (matchOutcome (mergeSets sets upd) (sanitizeSet upd).score).2 from rfl,
        e1, e2]
    exact ⟨rfl, rfl⟩
  · have e1 := matchOutcome_13 (mergeSets sets upd) (sanitizeSet upd).score hlen (hsw.trans h)
    have e2 := matchOutcome_13 sets s0 h4 h
    rw [show (updateGameSet sets upd).status =
          (matchOutcome (mergeSets sets upd) (sanitizeSet upd).score).1 from rfl,
        show (updateGameSet sets upd).finalScore =
          (matchOutcome (mergeSets sets upd) (sanitizeSet upd).score).2 from rfl,
        e1, e2]
    exact ⟨rfl, rfl⟩
  · have e1 := matchOutcome_04 (mergeSets sets upd) (sanitizeSet upd).score hlen (hsw.trans h)
    have e2 := matchOutcome_04 sets s0 h4 h
    rw [show (updateGameSet sets upd).status =
          (matchOutcome (mergeSets sets upd) (sanitizeSet upd).score).1 from rfl,
        show (updateGameSet sets upd).finalScore =
          (matchOutcome (mergeSets sets upd) (sanitizeSet upd).score).2 from rfl,
        e1, e2]
    exact ⟨rfl, rfl⟩

/-- C3 amended witness: adding an unscored set 5 to a 3-1 decided match
keeps the win and the 3-1 finalScore. -/
theorem updateGameSet_tallyDecided_stable_witness :
    (updateGameSet fourSets31 lineupOnlySet5).status = (matchOutcome fourSets31 none).1 ∧
    (updateGameSet fourSets31 lineupOnlySet5).finalScore = (matchOutcome fourSets31 none).2 :=
  updateGameSet_tallyDecided_stable fourSets31 lineupOnlySet5 none
    (by decide) (by decide) (by decide) (by decide)

/-- C4: a score-only update for a set that holds a recorded
substitution event: the live updateGameSet (and hence the real
handleSetScore flow) returns the merged set with an empty substitution
list, erasing the recorded event, while the legacy copy preserves it
as the claim demands. -/
theorem updateGameSet_drops_omitted_substitutions :
    (updateGameSet [setWithSub] scoreOnlyUpdate).sets =
      [⟨1, [], some ⟨25, 22⟩, some []⟩] ∧
    (updateGameSetLegacy [setWithSub] scoreOnlyUpdate).sets =
      [⟨1, [], some ⟨25, 22⟩, some [sampleSub]⟩] ∧
    (handleSetScore 1 ⟨25, 22⟩ [] [setWithSub]).1 =
      [⟨1, [], some ⟨25, 22⟩, some []⟩] ∧
    (handleSetScore 1 ⟨25, 22⟩ [] [setWithSub]).2 = none := by
  decide

/-- C5: once a set holds 6 substitution events, any further attempt
fails with SubstitutionLimitExceeded and returns the set unchanged,
whatever the current score and players are. -/
theorem substitutionFlow_seventh_attempt_fails
    (s : GameSet) (outP inP : LineupPlayer) (curr : SetScore)
    (h : (s.substitutions.getD []).length = 6) :
    substitutionFlow s outP inP curr = (s, some .SubstitutionLimitExceeded) := by
  unfold substitutionFlow
  rw [if_pos (by omega)]

/-- C5 witness: the seventh attempt on a capped set fails. -/
theorem substitutionFlow_seventh_attempt_fails_witness :
    substitutionFlow cappedSet samplePlayerA samplePlayerC ⟨20, 18⟩ =
      (cappedSet, some .SubstitutionLimitExceeded) :=
  substitutionFlow_seventh_attempt_fails cappedSet samplePlayerA samplePlayerC
    ⟨20, 18⟩ (by decide)

/-- C6 counterexample: substituting an outgoing player absent from the
lineup is not rejected: no error is reported (in particular not
PlayerNotInLineup) and the substitution event is appended; only the
lineup itself stays unmodified. -/
theorem substitutionFlow_missing_player_no_error :
    (substitutionFlow missingOutSet samplePlayerC samplePlayerB ⟨5, 3⟩).2 = none ∧
    (substitutionFlow missingOutSet samplePlayerC samplePlayerB ⟨5, 3⟩).2 ≠
      some .PlayerNotInLineup ∧
    (substitutionFlow missingOutSet samplePlayerC samplePlayerB ⟨5, 3⟩).1.lineup =
      missingOutSet.lineup ∧
    (substitutionFlow missingOutSet samplePlayerC samplePlayerB ⟨5, 3⟩).1.substitutions =
      some [⟨samplePlayerC, samplePlayerB, ⟨5, 3⟩⟩] := by
  decide

theorem lineup_map_id (l : List LineupPlayer) (outP inP : LineupPlayer)
    (h : ∀ p ∈ l, p.number ≠ outP.number) :
    (l.map fun p =>
      if p.number == outP.number then
        { inP with rotationPosition := p.rotationPosition }
      else p) = l := by
  induction l with
  | nil => rfl
  | cons p rest ih =>
    have hp : ¬(p.number == outP.number) = true := by
      simpa using h p (List.mem_cons_self p rest)
    simp only [List.map_cons, if_neg hp]
    rw [ih fun q hq => h q (List.mem_cons_of_mem p hq)]

/-- C6 amended: below the substitution cap, a request whose outgoing
player occupies no position of the lineup leaves the lineup unmodified
but reports no error and still appends the substitution event; the
source has no PlayerNotInLineup rejection (the modal only offers
lineup members as outgoing players). -/
theorem substitutionFlow_missing_player_appends
    (s : GameSet) (outP inP : LineupPlayer) (curr : SetScore)
    (hcap : (s.substitutions.getD []).length < 6)
    (hout : ∀ p ∈ s.lineup, p.number ≠ outP.number) :
    (substitutionFlow s outP inP curr).2 = none ∧
    (substitutionFlow s outP inP curr).1.lineup = s.lineup ∧
    (substitutionFlow s outP inP curr).1.substitutions =
      some ((s.substitutions.getD []) ++ [⟨outP, inP, curr⟩]) := by
  unfold substitutionFlow
  rw [if_neg (by omega)]
  exact ⟨rfl, lineup_map_id s.lineup outP inP hout, rfl⟩

/-- C6 amended witness. -/
theorem substitutionFlow_missing_player_appends_witness :
    (substitutionFlow missingOutSet samplePlayerC samplePlayerB ⟨5, 3⟩).2 = none ∧
    (substitutionFlow missingOutSet samplePlayerC samplePlayerB ⟨5, 3⟩).1.lineup =
      missingOutSet.lineup ∧
    (substitutionFlow missingOutSet samplePlayerC samplePlayerB ⟨5, 3⟩).1.substitutions =
      some ((missingOutSet.substitutions.getD []) ++
        [⟨samplePlayerC, samplePlayerB, ⟨5, 3⟩⟩]) :=
  substitutionFlow_missing_player_appends missingOutSet samplePlayerC samplePlayerB
    ⟨5, 3⟩ (by decide) (by decide)

/-- C7: a submitted score for sets 1-4 where no side reaches 25 points
or the margin is under 2 is rejected before any merge, with the stored
sets returned unchanged, and likewise for set 5 with the 15-point
threshold. -/
theorem handleSetScore_rejects_invalid
    (n : Nat) (score : SetScore) (lineup : List LineupPlayer)
    (sets : List GameSet)
    (h : (1 ≤ n ∧ n ≤ 4 ∧ ((score.team < 25 ∧ score.opponent < 25) ∨
            |score.team - score.opponent| < 2)) ∨
         (n = 5 ∧ ((score.team < 15 ∧ score.opponent < 15) ∨
            |score.team - score.opponent| < 2))) :
    (handleSetScore n score lineup sets).1 = sets ∧
    (handleSetScore n score lineup sets).2.isSome = true := by
  have hv : (validateSetScore n score).isSome = true := by
    unfold validateSetScore
    by_cases hneg : score.team < 0 ∨ score.opponent < 0
    · rw [if_pos hneg]; rfl
    · rw [if_neg hneg]
      rcases h with ⟨h1, h2, h3⟩ | ⟨h5, h3⟩
      · rw [if_pos h2]
        by_cases hth : score.team < 25 ∧ score.opponent < 25
        · rw [if_pos hth]; rfl
        · rw [if_neg hth]
          have hm : |score.team - score.opponent| < 2 := by tauto
          rw [if_pos hm]; rfl
      · rw [if_neg (by omega : ¬n ≤ 4)]
        by_cases hth : score.team < 15 ∧ score.opponent < 15
        · rw [if_pos hth]; rfl
        · rw [if_neg hth]
          have hm : |score.team - score.opponent| < 2 := by tauto
          rw [if_pos hm]; rfl
  obtain ⟨e, he⟩ := Option.isSome_iff_exists.mp hv
  simp [handleSetScore, he]

/-- C7 witness: scenario 4, a submitted 24-22 for set 1 is rejected and
the stored sets stay unchanged. -/
theorem handleSetScore_rejects_invalid_witness :
    (handleSetScore 1 ⟨24, 22⟩ [] [teamSet 1]).1 = [teamSet 1] ∧
    (handleSetScore 1 ⟨24, 22⟩ [] [teamSet 1]).2.isSome = true :=
  handleSetScore_rejects_invalid 1 ⟨24, 22⟩ [] [teamSet 1] (Or.inl (by decide))

theorem streakLoop_eq_takeWhile (f : GameStatus) (l : List Game) :
    ∀ c : Nat, streakLoop f l c =
      c + (l.takeWhile fun x => decide (x.status = f)).length := by
  induction l with
  | nil => intro c; simp [streakLoop]
  | cons g rest ih =>
    intro c
    by_cases h : g.status = f
    · simp [streakLoop, List.takeWhile_cons, h, ih]
      omega
    · simp [streakLoop, List.takeWhile_cons, h]

/-- C9: calculateCurrentStreak agrees with the claimed run description, is unaffected by in-progress matches, and returns count 0
with type none when no decided match exists. -/
theorem calculateCurrentStreak_spec (games : List Game) :
    calculateCurrentStreak games = streakRunLength games ∧
    calculateCurrentStreak games =
      calculateCurrentStreak (games.filter fun g =>
        decide (g.status ≠ GameStatus.inProgress)) ∧
    ((games.filter fun g => decide (g.status ≠ GameStatus.inProgress)) = [] →
      calculateCurrentStreak games = ⟨0, none⟩) := by
  refine ⟨?_, ?_, ?_⟩
  · unfold calculateCurrentStreak streakRunLength
    cases hs : sortByDateDesc (games.filter fun g =>
        decide (g.status ≠ GameStatus.inProgress)) with
    | nil => rfl
    | cons g rest =>
      have ht : ((g :: rest).takeWhile fun x => decide (x.status = g.status)).length
          = 1 + (rest.takeWhile fun x => decide (x.status = g.status)).length := by
        simp [List.takeWhile_cons]
        omega
      dsimp only
      rw [streakLoop_eq_takeWhile, ht]
  · unfold calculateCurrentStreak
    rw [List.filter_filter]
    have hp : (fun a => decide (a.status ≠ GameStatus.inProgress) &&
        decide (a.status ≠ GameStatus.inProgress)) =
        fun (a : Game) => decide (a.status ≠ GameStatus.inProgress) := by
      funext a
      exact Bool.and_self _
    rw [hp]
  · intro h
    unfold calculateCurrentStreak
    rw [h]
    rfl

/-- C9 witness: a list with only an in-progress game has no streak. -/
theorem calculateCurrentStreak_spec_witness :
    calculateCurrentStreak [sampleInProgressGame] = ⟨0, none⟩ :=
  (calculateCurrentStreak_spec [sampleInProgressGame]).2.2 (by decide)

end Spikey
